import Mathlib

/-!
Verification development for the Movie Search terminal application.

The definitions below are a shallow embedding of the repository's Python
modules (`main.py`, `mysql_connector.py`, `log_writer.py`, `log_stats.py`,
`user_interface.py`).  Effectful collaborators (the MySQL driver, the MongoDB
driver, the interactive console) are modelled as explicit inputs:

* every fallible database round trip is an oracle value (`QueryOutcome`,
  `AggOutcome`, an `Option String` insert-failure flag) so that the Python
  `try/except` structure becomes explicit `Except`/`match` code;
* every interactive prompt answer is drawn from a scripted list, mirroring the
  already-validated values the `user_interface` input loops return;
* MongoDB timestamps are a logical clock (`Nat`): the logger stamps each stored
  document with a strictly increasing counter, which preserves exactly the
  ordering information the aggregation pipelines consume.
-/

namespace MovieSearch

/-- A scalar value inside a log-event payload (Python dict values used by the
repository are strings and ints). -/
inductive Val
  | str (s : String)
  | int (n : Int)
  deriving DecidableEq, Repr

/-- A log-event payload: the Python `dict` passed to `log_event`, as an
association list in insertion order. -/
abbrev Payload := List (String × Val)

/-- `d.get k` : Python `dict.get(k)` (first binding wins). -/
def Payload.get : Payload → String → Option Val
  | [], _ => none
  | (k', v) :: rest, k => if k' = k then some v else Payload.get rest k

/-- A call to `MongoLogger.log_event` as made by the application code:
event type, payload and severity level (before the logger adds a timestamp). -/
structure EmittedEvent where
  event_type : String
  data : Payload
  level : String
  deriving DecidableEq, Repr

/-- One film row returned by the catalog queries
(`mysql_connector.FilmRecord`). -/
structure FilmRecord where
  title : String
  release_year : Int
  rating : Option String
  deriving DecidableEq, Repr

/-- Outcome of one execution of a catalog SQL query: either the fetched rows
or a raised driver exception (`MySQLError` / any other exception), which the
repository code catches. -/
inductive QueryOutcome
  | ok (rows : List FilmRecord)
  | raises (msg : String)
  deriving DecidableEq, Repr

/-- `mysql_connector.DEFAULT_LIMIT`: fixed page size of the catalog queries. -/
def DEFAULT_LIMIT : Nat := 10

/-- Python `str.strip()`: remove leading and trailing whitespace.  Implemented
over the character list so that it evaluates by kernel reduction. -/
def pyStrip (s : String) : String :=
  ⟨((s.data.dropWhile Char.isWhitespace).reverse.dropWhile Char.isWhitespace).reverse⟩

/-- `mysql_connector.log_search_error` (the single `log_event` call it makes
when a logger is present). -/
def log_search_error (context details error : String) : EmittedEvent :=
  { event_type := "search_error",
    data := [("description", .str ("Ошибка при поиске (" ++ context ++ "): " ++ details)),
             ("error", .str error)],
    level := "error" }

/-- The `log_input_error` call `search_by_keyword` makes on an empty keyword. -/
def log_input_error_event (context user_input : String) : EmittedEvent :=
  { event_type := "input_error",
    data := [("context", .str context), ("invalid_input", .str user_input)],
    level := "warning" }

/-- `mysql_connector.search_by_keyword`: rejects a whitespace-only keyword,
otherwise executes the SQL query (its outcome is the oracle `outcome`), logs a
`keyword_search` event on success, and on any exception logs a `search_error`
and returns the empty list.  Returns the rows together with the `log_event`
calls made. -/
def search_by_keyword (keyword : String) (offset : Nat) (outcome : QueryOutcome) :
    List FilmRecord × List EmittedEvent :=
  if pyStrip keyword = "" then
    ([], [log_input_error_event "search_by_keyword" "Пустой поисковый запрос"])
  else
    match outcome with
    | .ok rows =>
        (rows,
         [{ event_type := "keyword_search",
            data := [("keyword", .str keyword),
                     ("returned", .int rows.length),
                     ("offset", .int offset),
                     ("description",
                      .str ("Поиск по ключу '" ++ keyword ++ "' → найдено "
                            ++ toString rows.length))],
            level := "info" }])
    | .raises msg => ([], [log_search_error "keyword" keyword msg])

/-- `mysql_connector.search_by_genre_and_year`: executes the SQL query, logs a
`genre_search` event on success, and on any exception logs a `search_error`
with details `f"{genre}, {year_from}-{year_to}"` and returns the empty list. -/
def search_by_genre_and_year (genre : String) (year_from year_to : Int)
    (offset : Nat) (outcome : QueryOutcome) :
    List FilmRecord × List EmittedEvent :=
  match outcome with
  | .ok rows =>
      (rows,
       [{ event_type := "genre_search",
          data := [("genre", .str genre),
                   ("years", .str (toString year_from ++ "-" ++ toString year_to)),
                   ("returned", .int rows.length),
                   ("offset", .int offset),
                   ("description",
                    .str ("Поиск по жанру '" ++ genre ++ "' за " ++ toString year_from
                          ++ "-" ++ toString year_to ++ " → найдено "
                          ++ toString rows.length))],
          level := "info" }])
  | .raises msg =>
      ([], [log_search_error "genre_year"
              (genre ++ ", " ++ toString year_from ++ "-" ++ toString year_to) msg])

/-! ### The search orchestrator (`main.show_paginated_results`) -/

/-- A Python value appearing in the orchestrator's `args` tuple: the MySQL
connection object, a string, or an int. -/
inductive PyVal
  | conn
  | vstr (s : String)
  | vint (n : Int)
  deriving DecidableEq, Repr

/-- The two search functions `main` passes to `show_paginated_results`. -/
inductive SearchFn
  | byKeyword
  | byGenreYear
  deriving DecidableEq, Repr

/-- `search_func.__name__`, which the orchestrator compares against
`"search_by_keyword"`. -/
def SearchFn.pyName : SearchFn → String
  | .byKeyword => "search_by_keyword"
  | .byGenreYear => "search_by_genre_and_year"

/-- A successfully bound call to one of the search functions. -/
inductive BoundCall
  | keywordCall (keyword : String)
  | genreCall (genre : String) (year_from year_to : Int)
  deriving DecidableEq, Repr

/-- Python call binding of `search_func(*args, offset=..., logger=...)` for the
argument-tuple shapes reachable from `main`: `search_by_keyword` needs
`(conn, keyword)`, `search_by_genre_and_year` needs
`(conn, genre, year_from, year_to)`.  Any other shape raises `TypeError`
before the function body runs (in particular a genre/year call whose tuple was
rebuilt as `(conn, new_keyword)` is missing its required `year_from` and
`year_to` arguments). -/
def bindCall : SearchFn → List PyVal → Except String BoundCall
  | .byKeyword, [.conn, .vstr kw] => .ok (.keywordCall kw)
  | .byKeyword, _ => .error "TypeError"
  | .byGenreYear, [.conn, .vstr g, .vint a, .vint b] => .ok (.genreCall g a b)
  | .byGenreYear, _ => .error "TypeError"

/-- Execute a bound search call at the given offset with the given query
outcome. -/
def runSearch (call : BoundCall) (offset : Nat) (outcome : QueryOutcome) :
    List FilmRecord × List EmittedEvent :=
  match call with
  | .keywordCall kw => search_by_keyword kw offset outcome
  | .genreCall g a b => search_by_genre_and_year g a b offset outcome

/-- `main.log_keyword_summary`: the single `keyword_summary` event emitted for
the first page of a keyword session. -/
def log_keyword_summary (keyword : String) (found_count : Nat) : EmittedEvent :=
  { event_type := "keyword_summary",
    data := [("keyword", .str keyword),
             ("status", .str (if found_count > 0 then "found" else "not_found")),
             ("found_count", .int found_count)],
    level := "info" }

/-- `keyword = args[1] if len(args) > 1 else ""` (the orchestrator only reads
it when `args[1]` is the keyword string). -/
def argAt1 : List PyVal → String
  | _ :: .vstr s :: _ => s
  | _ => ""

/-- One iteration's worth of scripted external inputs: the catalog query
outcome for the fetch, the answer to `continue_or_menu_prompt` and the fresh
keyword from `get_keyword_input` (consulted only on an empty page), and the
answer to `continue_prompt` (consulted only on a full page). -/
structure Turn where
  outcome : QueryOutcome
  retryAnswer : Bool
  newKeyword : String
  contAnswer : Bool
  deriving DecidableEq, Repr

/-- How an orchestrator run ended. -/
inductive Termination
  | finished            -- the `while` loop exited via `break`
  | scriptEnded         -- the observation script ran out mid-session
  | raised (err : String)   -- an uncaught Python exception propagated
  deriving DecidableEq, Repr

/-- Observables of one `show_paginated_results` run. -/
structure RunResult where
  /-- the `log_event` calls, in order -/
  events : List EmittedEvent
  /-- `ui.print_message` output produced by the orchestrator itself -/
  console : List String
  /-- the offset of each invocation of the search function -/
  fetchOffsets : List Nat
  /-- how many times the empty-page new-keyword restart branch ran -/
  restarts : Nat
  /-- the interactive prompts shown, in order -/
  prompts : List String
  termination : Termination
  deriving DecidableEq, Repr

/-- `main.show_paginated_results`, driven by a script of `Turn`s (one per loop
iteration).  Mirrors the Python loop line by line: fetch at the current
offset; on the first page of a keyword search emit `keyword_summary`; on an
empty page print the not-found message and either break or restart at offset 0
with `args` rebuilt as `(args[0], new_keyword)`; on a short page break; on a
full page ask `continue_prompt` and advance the offset by 10. -/
def show_paginated_results (func : SearchFn) :
    List PyVal → Nat → List Turn → RunResult
  | args, _, [] =>
    (match bindCall func args with
     | .error e => { events := [], console := [], fetchOffsets := [], restarts := 0,
                     prompts := [], termination := .raised e }
     | .ok _ => { events := [], console := [], fetchOffsets := [], restarts := 0,
                  prompts := [], termination := .scriptEnded })
  | args, offset, t :: ts =>
    (match bindCall func args with
     | .error e => { events := [], console := [], fetchOffsets := [], restarts := 0,
                     prompts := [], termination := .raised e }
     | .ok call =>
       let fetched := runSearch call offset t.outcome
       let results := fetched.1
       let pre := fetched.2 ++
         (if offset = 0 ∧ func.pyName = "search_by_keyword" then
            [log_keyword_summary (argAt1 args) results.length]
          else [])
       if results.isEmpty then
         if t.retryAnswer then
           let rest := show_paginated_results func
             [args.headD .conn, .vstr t.newKeyword] 0 ts
           { events := pre ++ rest.events,
             console := "По вашему запросу ничего не найдено." :: rest.console,
             fetchOffsets := offset :: rest.fetchOffsets,
             restarts := rest.restarts + 1,
             prompts := "retry_or_menu" :: "new_keyword" :: rest.prompts,
             termination := rest.termination }
         else
           { events := pre,
             console := ["По вашему запросу ничего не найдено."],
             fetchOffsets := [offset], restarts := 0,
             prompts := ["retry_or_menu"], termination := .finished }
       else
         if results.length < 10 then
           { events := pre, console := [], fetchOffsets := [offset], restarts := 0,
             prompts := [], termination := .finished }
         else
           if t.contAnswer then
             let rest := show_paginated_results func args (offset + 10) ts
             { events := pre ++ rest.events,
               console := rest.console,
               fetchOffsets := offset :: rest.fetchOffsets,
               restarts := rest.restarts,
               prompts := "show_more" :: rest.prompts,
               termination := rest.termination }
           else
             { events := pre, console := [], fetchOffsets := [offset], restarts := 0,
               prompts := ["show_more"], termination := .finished })

/-! ### The event logger (`log_writer.MongoLogger`) -/

/-- A document stored in the MongoDB log collection: the entry built by
`MongoLogger.log_event`.  Timestamps are the logger's logical clock. -/
structure LogEvent where
  event_type : String
  data : Payload
  level : String
  timestamp : Nat
  deriving DecidableEq, Repr

/-- The mutable state of a `MongoLogger` instance: whether `self.collection`
is set (i.e. the initial connection succeeded), the stored documents, and the
logical clock used for `get_timestamp`. -/
structure MongoLoggerState where
  connected : Bool
  store : List LogEvent
  clock : Nat
  deriving DecidableEq, Repr

/-- `self.collection is not None`. -/
def MongoLogger.is_connected (st : MongoLoggerState) : Bool := st.connected

/-- `collection.insert_one(entry)`: appends the document, or raises (the
oracle `failure` carries the driver error). -/
def insert_one (store : List LogEvent) (entry : LogEvent) (failure : Option String) :
    Except String (List LogEvent) :=
  match failure with
  | none => .ok (store ++ [entry])
  | some e => .error e

/-- ASCII uppercase of a string (`level.upper()` on the ASCII level names),
over the character list so that it evaluates by kernel reduction. -/
def pyUpper (s : String) : String := ⟨s.data.map Char.toUpper⟩

/-- The `source_map` dictionary lookup in `MongoLogger.log_event`, with the
event type itself as the default. -/
def source_map (event_type : String) : String :=
  if event_type = "startup" then "MongoLogger"
  else if event_type = "db_connected" then "MySQL"
  else if event_type = "mongodb_connected" then "MongoDB"
  else if event_type = "shutdown" then "MongoLogger"
  else if event_type = "input_error" then "Input"
  else event_type

/-- A rendering of a payload standing in for Python's `str(data)` (the exact
dict syntax is irrelevant to every property proved here). -/
def payloadRepr (data : Payload) : String :=
  String.intercalate ", " (data.map (fun kv => kv.1 ++ ": " ++
    (match kv.2 with | .str s => s | .int n => toString n)))

/-- `data.get("description") or str(data)`: Python `or` falls through on a
missing description and on falsy values (empty string, zero). -/
def descriptionOf (data : Payload) : String :=
  match data.get "description" with
  | some (.str s) => if s = "" then payloadRepr data else s
  | some (.int n) => if n = 0 then payloadRepr data else toString n
  | none => payloadRepr data

/-- The console echo line `[LEVEL] time  source: description` printed by
`log_event` for info/error events (the strftime time string is modelled as
the logical timestamp's decimal rendering). -/
def console_line (level : String) (timestamp : Nat) (event_type : String)
    (data : Payload) : String :=
  "[" ++ pyUpper level ++ "] " ++ toString timestamp ++ "  "
    ++ source_map event_type ++ ": " ++ descriptionOf data

/-- `MongoLogger.log_event`: a no-op when disconnected; otherwise stamps the
entry with the current clock, tries `insert_one` — swallowing its failure with
a console message — and echoes info/error events to the console.  The
`Except` result makes "never raises to the caller" a provable statement: the
only fallible operation, `insert_one`, is wrapped in `try/except`. -/
def MongoLogger.log_event (st : MongoLoggerState) (insertFailure : Option String)
    (event_type : String) (data : Payload) (level : String) :
    Except String (MongoLoggerState × List String) :=
  if st.connected = false then .ok (st, [])
  else
    let timestamp := st.clock
    let entry : LogEvent := ⟨event_type, data, level, timestamp⟩
    let inserted :=
      match insert_one st.store entry insertFailure with
      | .ok s => (s, ([] : List String))
      | .error e => (st.store, ["[ERROR] MongoLogger: failed to write to MongoDB → " ++ e])
    let echo := if level = "info" ∨ level = "error" then
        [console_line level timestamp event_type data] else []
    .ok ({ st with store := inserted.1, clock := st.clock + 1 }, inserted.2 ++ echo)

/-- `MongoLogger.log_input_error`: prints the `[Input Error]` line, then logs
an `input_error` event at warning level. -/
def MongoLogger.log_input_error (st : MongoLoggerState) (insertFailure : Option String)
    (context user_input : String) :
    Except String (MongoLoggerState × List String) :=
  match MongoLogger.log_event st insertFailure "input_error"
      [("context", .str context), ("invalid_input", .str user_input)] "warning" with
  | .ok r =>
      .ok (r.1, ("[Input Error] Context: " ++ context ++ " | Input: " ++ user_input) :: r.2)
  | .error e => .error e

/-- `MongoLogger.__init__`: on any exception while connecting (or while
logging the `mongodb_connected` event) it prints the connection-error line and
degrades to the disconnected state (`self.collection = None`). -/
def MongoLogger.init (connectFailure : Option String) (insertFailure : Option String) :
    MongoLoggerState × List String :=
  match connectFailure with
  | some e => (⟨false, [], 0⟩, ["[ERROR] MongoDB: connection error → " ++ e])
  | none =>
    let st0 : MongoLoggerState := ⟨true, [], 0⟩
    match MongoLogger.log_event st0 insertFailure "mongodb_connected"
        [("description", .str "Logger successfully connected.")] "info" with
    | .ok r => r
    | .error e => (⟨false, [], 0⟩, ["[ERROR] MongoDB: connection error → " ++ e])

/-! ### The statistics aggregator (`log_stats`)

The MongoDB aggregation pipelines are modelled at two levels.

The *reference evaluations* (`top_searches_pipeline`,
`recent_searches_pipeline`) run the pipeline deterministically: `$sort` as a
stable sort (`List.insertionSort`) and `$group` emitting one group per
distinct key in first-appearance order of the (already sorted) input stream,
with `$first` taking the field of that first member.

MongoDB, however, documents the `$group` output order as undefined and does
not perform a stable sort on duplicate sort keys, so any property that
depends on those orders is not a property of the program.  What every
execution does share is the *multiset* of groups — each group's key, its
`$sum : 1` occurrence count, and its `$first`-after-timestamp-sort field,
which is the group's maximal timestamp however ties in the pre-sort fall —
and, after the final `$sort`, the documented sort-key order of the output.
`validTopOutput` below captures exactly that for the top-searches pipeline:
any count-descending arrangement of the group multiset, truncated to 5, is an
admissible result, and the reference evaluation is proved to be one of them.
Every property claimed of `recent_searches_pipeline` is order-robust in this
sense already (timestamps non-increasing, keys distinct, per-key facts). -/

/-- A `$group` output document: the grouping key, the accumulated
`$sum : 1` count, and the `$first : $timestamp` field.  (The
recent-unique pipeline does not use the count field.) -/
structure GroupOf (κ : Type) where
  key : κ
  count : Nat
  timestamp : Nat
  deriving DecidableEq, Repr

/-- The grouping key of `get_top_searches`:
`(event_type, data.keyword, data.genre, data.year_from, data.year_to)`, where
a missing payload field is `none`. -/
structure GroupKey where
  type : String
  keyword : Option Val
  genre : Option Val
  year_from : Option Val
  year_to : Option Val
  deriving DecidableEq, Repr

/-- Fold one document into the running group list: bump the count of its key's
group, or append a fresh group (first-appearance order). -/
def addDoc {κ : Type} [DecidableEq κ] (key : LogEvent → κ)
    (acc : List (GroupOf κ)) (d : LogEvent) : List (GroupOf κ) :=
  match acc with
  | [] => [⟨key d, 1, d.timestamp⟩]
  | g :: rest =>
    if g.key = key d then ⟨g.key, g.count + 1, g.timestamp⟩ :: rest
    else g :: addDoc key rest d

/-- The `$group` stage over a stream of documents. -/
def groupDocs {κ : Type} [DecidableEq κ] (key : LogEvent → κ)
    (docs : List LogEvent) : List (GroupOf κ) :=
  docs.foldl (addDoc key) []

/-- `$sort` by timestamp descending, on documents. -/
def dtsGe (a b : LogEvent) : Prop := b.timestamp ≤ a.timestamp

/-- `$sort` by timestamp descending, on groups. -/
def gtsGe {κ : Type} (a b : GroupOf κ) : Prop := b.timestamp ≤ a.timestamp

/-- `$sort` by count descending, on groups. -/
def countGe {κ : Type} (a b : GroupOf κ) : Prop := b.count ≤ a.count

instance : DecidableRel dtsGe := fun _ _ => Nat.decLe _ _

instance {κ : Type} : DecidableRel (gtsGe (κ := κ)) := fun _ _ => Nat.decLe _ _

instance {κ : Type} : DecidableRel (countGe (κ := κ)) := fun _ _ => Nat.decLe _ _

instance : IsTotal LogEvent dtsGe := ⟨fun a b => Nat.le_total b.timestamp a.timestamp⟩

instance : IsTrans LogEvent dtsGe := ⟨fun _ _ _ hab hbc => Nat.le_trans hbc hab⟩

instance {κ : Type} : IsTotal (GroupOf κ) gtsGe :=
  ⟨fun a b => Nat.le_total b.timestamp a.timestamp⟩

instance {κ : Type} : IsTrans (GroupOf κ) gtsGe :=
  ⟨fun _ _ _ hab hbc => Nat.le_trans hbc hab⟩

instance {κ : Type} : IsTotal (GroupOf κ) countGe :=
  ⟨fun a b => Nat.le_total b.count a.count⟩

instance {κ : Type} : IsTrans (GroupOf κ) countGe :=
  ⟨fun _ _ _ hab hbc => Nat.le_trans hbc hab⟩

/-- The `$match` predicate of `get_top_searches`: search events of either
kind. -/
def isSearchDoc (d : LogEvent) : Bool :=
  d.event_type == "search_by_keyword" || d.event_type == "search_by_genre_year"

/-- The grouping key extractor of `get_top_searches`. -/
def docKey (d : LogEvent) : GroupKey :=
  ⟨d.event_type, d.data.get "keyword", d.data.get "genre",
   d.data.get "year_from", d.data.get "year_to"⟩

/-- The deterministic reference evaluation of the `get_top_searches`
pipeline: match search events, sort by timestamp descending, group (count,
first timestamp), sort by count descending, limit 5.  This is ONE admissible
execution of the pipeline (see `validTopOutput` for the set of all of them);
order-dependent conclusions must not be drawn from it. -/
def top_searches_pipeline (docs : List LogEvent) : List (GroupOf GroupKey) :=
  (List.insertionSort countGe
     (groupDocs docKey (List.insertionSort dtsGe (docs.filter isSearchDoc)))).take 5

/-- The admissible outputs of the `get_top_searches` pipeline: MongoDB fixes
the multiset of groups (computed here by the order-insensitive `groupDocs`
over the timestamp-sorted stream) and guarantees of the final
`$sort: count descending, $limit: 5` only that the output is some
count-descending arrangement of that multiset truncated to 5 — `$group`
output order is undefined and the sort is not stable, so the relative order
of equal-count groups is unspecified. -/
def validTopOutput (docs : List LogEvent) (out : List (GroupOf GroupKey)) : Prop :=
  ∃ gs : List (GroupOf GroupKey),
    gs.Perm (groupDocs docKey (List.insertionSort dtsGe (docs.filter isSearchDoc)))
    ∧ gs.Pairwise countGe
    ∧ out = gs.take 5

/-- The grouping key extractor of `get_recent_unique_searches`:
`$data.keyword` only. -/
def recentKey (d : LogEvent) : Option Val := d.data.get "keyword"

/-- The aggregation pipeline of `get_recent_unique_searches`: match ONLY
`search_by_keyword` events, sort by timestamp descending, group by keyword
(first timestamp), sort by timestamp descending, limit 5. -/
def recent_searches_pipeline (docs : List LogEvent) : List (GroupOf (Option Val)) :=
  (List.insertionSort gtsGe
     (groupDocs recentKey
       (List.insertionSort dtsGe
         (docs.filter (fun d => d.event_type == "search_by_keyword"))))).take 5

/-- Modelled from the spec: the recent-unique view C4 describes — group
search events of BOTH kinds by `(search_kind, parameters)`, keep the most
recent timestamp per group, rank by that timestamp descending, take 5.  Used
only to compare the claim's words against `recent_searches_pipeline`. -/
def recent_unique_claim (docs : List LogEvent) : List (GroupOf GroupKey) :=
  (List.insertionSort gtsGe
     (groupDocs docKey (List.insertionSort dtsGe (docs.filter isSearchDoc)))).take 5

/-- One row handed to the table formatter; `timestamp := none` renders as the
"—" placeholder. -/
structure StatEntry where
  timestamp : Option Nat
  event_type : String
  params : String
  deriving DecidableEq, Repr

/-- Rendering of a payload value in an f-string. -/
def valText : Val → String
  | .str s => s
  | .int n => toString n

/-- Rendering of a possibly-missing group key in an f-string (`str(None)` is
`"None"`). -/
def optValText : Option Val → String
  | some v => valText v
  | none => "None"

/-- The per-group formatting loop of `get_top_searches` (a dict `.get` with
default `"—"` yields the dash for a missing key field). -/
def format_top_entry (g : GroupOf GroupKey) : StatEntry :=
  if g.key.type = "search_by_keyword" then
    { timestamp := some g.timestamp,
      event_type := "поиск по слову",
      params := "'" ++ (match g.key.keyword with | some v => valText v | none => "—")
                ++ "' — " ++ toString g.count ++ " раз" }
  else
    { timestamp := some g.timestamp,
      event_type := "поиск по жанру",
      params := (match g.key.genre with | some v => valText v | none => "—") ++ ", "
                ++ (match g.key.year_from with | some v => valText v | none => "—") ++ "-"
                ++ (match g.key.year_to with | some v => valText v | none => "—")
                ++ " — " ++ toString g.count ++ " раз" }

/-- The per-group formatting of `get_recent_unique_searches`. -/
def format_recent_entry (g : GroupOf (Option Val)) : StatEntry :=
  { timestamp := some g.timestamp, event_type := "уникальный запрос",
    params := "'" ++ optValText g.key ++ "'" }

/-- Outcome of executing `logger.collection.aggregate(pipeline)`. -/
inductive AggOutcome
  | ok
  | raises (msg : String)
  deriving DecidableEq, Repr

/-- The debug event `get_top_searches` logs on success. -/
def stats_top_event (n : Nat) : EmittedEvent :=
  ⟨"stats_top_searches",
   [("returned", .int n),
    ("description", .str ("Топ-5 самых частых запросов (всего: " ++ toString n ++ ")"))],
   "debug"⟩

/-- The debug event `get_recent_unique_searches` logs on success. -/
def stats_recent_event (n : Nat) : EmittedEvent :=
  ⟨"stats_recent_unique",
   [("returned", .int n),
    ("description", .str ("Последние 5 уникальных запросов — " ++ toString n ++ " результатов"))],
   "debug"⟩

/-- The `stats_error` event logged by `log_stats.log_stats_error`. -/
def log_stats_error_event (context error : String) : EmittedEvent :=
  ⟨"stats_error",
   [("context", .str context), ("error", .str error),
    ("description", .str ("Ошибка при получении статистики: " ++ error))],
   "error"⟩

/-- `log_stats.unavailable_stats`: the single placeholder row returned when
the log store is unreachable. -/
def unavailable_stats (source : String) : List StatEntry :=
  [{ timestamp := none, event_type := source, params := "недоступна" }]

/-- The single error placeholder row returned by `log_stats.log_stats_error`. -/
def stats_error_entry (context : String) : List StatEntry :=
  [{ timestamp := none, event_type := "ошибка",
     params := "ошибка при получении статистики (" ++ context ++ ")" }]

/-- The `try:` body of `get_top_searches` (aggregate, format, log the debug
event); `.error` is the raised exception the `except` arm catches. -/
def top_searches_try (st : MongoLoggerState) (agg : AggOutcome) :
    Except String (List StatEntry × List EmittedEvent) :=
  match agg with
  | .raises e => .error e
  | .ok =>
    let formatted := (top_searches_pipeline st.store).map format_top_entry
    .ok (formatted, [stats_top_event formatted.length])

/-- `log_stats.get_top_searches`: placeholder when the logger is `None` or
disconnected; otherwise run the `try:` body and convert any exception into a
logged `stats_error` plus an error placeholder.  Always `.ok`. -/
def get_top_searches (logger : Option MongoLoggerState) (agg : AggOutcome) :
    Except String (List StatEntry × List EmittedEvent) :=
  match logger with
  | none => .ok (unavailable_stats "MongoDB", [])
  | some st =>
    if st.connected = false then .ok (unavailable_stats "MongoDB", [])
    else
      match top_searches_try st agg with
      | .ok r => .ok r
      | .error e =>
          .ok (stats_error_entry "top_searches",
               [log_stats_error_event "top_searches" e])

/-- The `try:` body of `get_recent_unique_searches`. -/
def recent_unique_try (st : MongoLoggerState) (agg : AggOutcome) :
    Except String (List StatEntry × List EmittedEvent) :=
  match agg with
  | .raises e => .error e
  | .ok =>
    let result := recent_searches_pipeline st.store
    .ok (result.map format_recent_entry, [stats_recent_event result.length])

/-- `log_stats.get_recent_unique_searches`: same degradation structure as
`get_top_searches`, with context `"recent_unique"`. -/
def get_recent_unique_searches (logger : Option MongoLoggerState) (agg : AggOutcome) :
    Except String (List StatEntry × List EmittedEvent) :=
  match logger with
  | none => .ok (unavailable_stats "MongoDB", [])
  | some st =>
    if st.connected = false then .ok (unavailable_stats "MongoDB", [])
    else
      match recent_unique_try st agg with
      | .ok r => .ok r
      | .error e =>
          .ok (stats_error_entry "recent_unique",
               [log_stats_error_event "recent_unique" e])

/-! ### The termination paths of `main` -/

/-- An observable action of `main` relevant to shutdown behaviour. -/
inductive MainAction
  | printMsg (s : String)
  | logEvent (event_type : String) (level : String)
  | searchSession          -- one handled menu choice 1/2/3 (details irrelevant here)
  | closeLogger            -- `logger.close()`
  | closeMySQL             -- a `mysql_conn.close()` call — appears nowhere in `main.py`
  | sysExit                -- `sys.exit(0)`
  deriving DecidableEq, Repr

/-- One main-menu interaction: a validated menu choice, or a
`KeyboardInterrupt` raised at a prompt. -/
inductive MenuStep
  | choice (n : Nat)
  | interrupt
  deriving DecidableEq, Repr

/-- `user_interface.graceful_exit`: print the goodbye line, log the shutdown
event, `sys.exit(0)`.  The raised `SystemExit` propagates through `main` —
there is no `finally:` — so the `logger.close()` after the loop never runs on
this path. -/
def graceful_exit_actions : List MainAction :=
  [.printMsg "[INFO] Работа приложения прервана пользователем. До свидания!",
   .logEvent "shutdown" "info",
   .sysExit]

/-- The `while True:` menu loop of `main`, plus the `logger.close()` that runs
after a `break` (menu choice 4).  Other choices run one search/statistics
interaction and loop; an exhausted script means the loop is still awaiting
input. -/
def main_loop : List MenuStep → List MainAction
  | [] => []
  | .interrupt :: _ => graceful_exit_actions
  | .choice n :: rest =>
    if n = 4 then
      [.printMsg "Спасибо за использование Movie Search. До встречи!",
       .logEvent "shutdown" "info",
       .closeLogger]
    else .searchSession :: main_loop rest

/-- The event list of a fetch plus the possible first-page keyword summary —
the events one loop iteration emits before branching. -/
def preEvents (func : SearchFn) (args : List PyVal) (offset : Nat)
    (call : BoundCall) (t : Turn) : List EmittedEvent :=
  (runSearch call offset t.outcome).2 ++
    (if offset = 0 ∧ func.pyName = "search_by_keyword" then
       [log_keyword_summary (argAt1 args) (runSearch call offset t.outcome).1.length]
     else [])

/-- The `keyword_summary` events among a list of emitted events. -/
def keywordSummaries (es : List EmittedEvent) : List EmittedEvent :=
  es.filter (fun e => e.event_type = "keyword_summary")

/-- The arithmetic progression `o, o+10, …` of length `n`: the fetch offsets
of a restart-free session starting at offset `o`. -/
def offsetsList (o n : Nat) : List Nat := (List.range n).map (fun i => o + 10 * i)

/-- First group with the given key, if any. -/
def findKey {κ : Type} [DecidableEq κ] : List (GroupOf κ) → κ → Option (GroupOf κ)
  | [], _ => none
  | g :: gs, k => if g.key = k then some g else findKey gs k

/-- The ranking order C3 asserts of the top-searches output: count
descending, ties broken by more-recent representative timestamp. -/
def lexP {κ : Type} (a b : GroupOf κ) : Prop :=
  b.count ≤ a.count ∧ (a.count = b.count → b.timestamp ≤ a.timestamp)

/-- Documents contributing to the top-searches group with key `k`: search
events of either kind whose grouping key is `k`. -/
def matchesTopKey (k : GroupKey) (d : LogEvent) : Bool :=
  isSearchDoc d && decide (docKey d = k)

/-!
## Theorems

First, one rewrite lemma per branch of `show_paginated_results`, then the
claims.
-/

theorem spr_bind_error {func : SearchFn} {args : List PyVal} {e : String}
    (hb : bindCall func args = .error e) (offset : Nat) (script : List Turn) :
    show_paginated_results func args offset script
      = ⟨[], [], [], 0, [], .raised e⟩ := by
  cases script <;> simp [show_paginated_results, hb]

theorem spr_nil {func : SearchFn} {args : List PyVal} {call : BoundCall}
    (hb : bindCall func args = .ok call) (offset : Nat) :
    show_paginated_results func args offset []
      = ⟨[], [], [], 0, [], .scriptEnded⟩ := by
  simp [show_paginated_results, hb]

theorem spr_empty_stop {func : SearchFn} {args : List PyVal} {call : BoundCall}
    (hb : bindCall func args = .ok call) {offset : Nat} {t : Turn}
    (hemp : (runSearch call offset t.outcome).1 = [])
    (hretry : t.retryAnswer = false) (ts : List Turn) :
    show_paginated_results func args offset (t :: ts)
      = ⟨preEvents func args offset call t,
         ["По вашему запросу ничего не найдено."], [offset], 0,
         ["retry_or_menu"], .finished⟩ := by
  simp [show_paginated_results, hb, preEvents, hemp, hretry]

theorem spr_empty_retry {func : SearchFn} {args : List PyVal} {call : BoundCall}
    (hb : bindCall func args = .ok call) {offset : Nat} {t : Turn}
    (hemp : (runSearch call offset t.outcome).1 = [])
    (hretry : t.retryAnswer = true) (ts : List Turn) :
    show_paginated_results func args offset (t :: ts)
      = ⟨preEvents func args offset call t
           ++ (show_paginated_results func [args.headD .conn, .vstr t.newKeyword] 0 ts).events,
         "По вашему запросу ничего не найдено."
           :: (show_paginated_results func [args.headD .conn, .vstr t.newKeyword] 0 ts).console,
         offset :: (show_paginated_results func [args.headD .conn, .vstr t.newKeyword] 0 ts).fetchOffsets,
         (show_paginated_results func [args.headD .conn, .vstr t.newKeyword] 0 ts).restarts + 1,
         "retry_or_menu" :: "new_keyword"
           :: (show_paginated_results func [args.headD .conn, .vstr t.newKeyword] 0 ts).prompts,
         (show_paginated_results func [args.headD .conn, .vstr t.newKeyword] 0 ts).termination⟩ := by
  simp [show_paginated_results, hb, preEvents, hemp, hretry]

theorem spr_short {func : SearchFn} {args : List PyVal} {call : BoundCall}
    (hb : bindCall func args = .ok call) {offset : Nat} {t : Turn}
    (hne : (runSearch call offset t.outcome).1 ≠ [])
    (hlt : (runSearch call offset t.outcome).1.length < 10) (ts : List Turn) :
    show_paginated_results func args offset (t :: ts)
      = ⟨preEvents func args offset call t, [], [offset], 0, [], .finished⟩ := by
  simp [show_paginated_results, hb, preEvents, hne, hlt]

theorem spr_full_stop {func : SearchFn} {args : List PyVal} {call : BoundCall}
    (hb : bindCall func args = .ok call) {offset : Nat} {t : Turn}
    (hne : (runSearch call offset t.outcome).1 ≠ [])
    (hge : ¬ (runSearch call offset t.outcome).1.length < 10)
    (hcont : t.contAnswer = false) (ts : List Turn) :
    show_paginated_results func args offset (t :: ts)
      = ⟨preEvents func args offset call t, [], [offset], 0, ["show_more"], .finished⟩ := by
  simp [show_paginated_results, hb, preEvents, hne, hge, hcont]

theorem spr_full_cont {func : SearchFn} {args : List PyVal} {call : BoundCall}
    (hb : bindCall func args = .ok call) {offset : Nat} {t : Turn}
    (hne : (runSearch call offset t.outcome).1 ≠ [])
    (hge : ¬ (runSearch call offset t.outcome).1.length < 10)
    (hcont : t.contAnswer = true) (ts : List Turn) :
    show_paginated_results func args offset (t :: ts)
      = ⟨preEvents func args offset call t
           ++ (show_paginated_results func args (offset + 10) ts).events,
         (show_paginated_results func args (offset + 10) ts).console,
         offset :: (show_paginated_results func args (offset + 10) ts).fetchOffsets,
         (show_paginated_results func args (offset + 10) ts).restarts,
         "show_more" :: (show_paginated_results func args (offset + 10) ts).prompts,
         (show_paginated_results func args (offset + 10) ts).termination⟩ := by
  simp [show_paginated_results, hb, preEvents, hne, hge, hcont]

theorem log_event_is_ok (st : MongoLoggerState) (f : Option String)
    (et : String) (d : Payload) (lv : String) :
    ∃ r, MongoLogger.log_event st f et d lv = .ok r := by
  unfold MongoLogger.log_event
  by_cases hcn : st.connected = false
  · simp [hcn]
  · simp only [if_neg hcn]
    cases f <;> simp [insert_one]

theorem log_input_error_is_ok (st : MongoLoggerState) (f : Option String)
    (c u : String) :
    ∃ r, MongoLogger.log_input_error st f c u = .ok r := by
  obtain ⟨r, hr⟩ := log_event_is_ok st f "input_error"
    [("context", .str c), ("invalid_input", .str u)] "warning"
  exact ⟨_, by rw [MongoLogger.log_input_error, hr]⟩

/-- C10: any exception raised while executing a catalog query is caught by
`search_by_keyword` / `search_by_genre_and_year`, a `search_error` event is
logged, and the empty list is returned — identical, at the call site, to an
empty result page. -/
theorem search_functions_swallow_query_errors
    (kw g : String) (a b : Int) (o : Nat) (msg : String)
    (hkw : pyStrip kw ≠ "") :
    search_by_keyword kw o (.raises msg)
        = ([], [log_search_error "keyword" kw msg])
    ∧ search_by_genre_and_year g a b o (.raises msg)
        = ([], [log_search_error "genre_year"
                  (g ++ ", " ++ toString a ++ "-" ++ toString b) msg])
    ∧ (search_by_keyword kw o (.raises msg)).1
        = (search_by_keyword kw o (.ok [])).1
    ∧ (search_by_genre_and_year g a b o (.raises msg)).1
        = (search_by_genre_and_year g a b o (.ok [])).1 := by
  refine ⟨?_, ?_, ?_, ?_⟩ <;>
    simp [search_by_keyword, search_by_genre_and_year, hkw]

theorem search_functions_swallow_query_errors_witness :
    pyStrip "love" ≠ ""
    ∧ search_by_keyword "love" 0 (.raises "boom")
        = ([], [log_search_error "keyword" "love" "boom"]) :=
  ⟨by decide,
   (search_functions_swallow_query_errors "love" "Drama" 2000 2005 0 "boom" (by decide)).1⟩

/-- C9: `MongoLogger.log_event` never raises to its caller for any event
type, payload and level: when disconnected (including after a failed initial
connection) it is a no-op that leaves the state untouched, and an
`insert_one` failure is swallowed (console message, store unchanged, still
`.ok`); `MongoLogger.log_input_error` logs the context and invalid input at
warning level and never raises either. -/
theorem log_event_best_effort
    (stD stC : MongoLoggerState) (insertFailure : Option String)
    (etype : String) (data : Payload) (level : String) (c u fe : String)
    (hd : stD.connected = false) (hc : stC.connected = true) :
    (∀ (st : MongoLoggerState) (f : Option String) (et : String) (d : Payload) (lv : String),
        ∃ r, MongoLogger.log_event st f et d lv = .ok r)
    ∧ MongoLogger.log_event stD insertFailure etype data level = .ok (stD, [])
    ∧ (MongoLogger.init (some fe) insertFailure).1.connected = false
    ∧ (∀ e, MongoLogger.log_event stC (some e) etype data level
        = .ok ({ stC with clock := stC.clock + 1 },
               ("[ERROR] MongoLogger: failed to write to MongoDB → " ++ e)
                 :: (if level = "info" ∨ level = "error" then
                       [console_line level stC.clock etype data] else [])))
    ∧ (∀ (st : MongoLoggerState) (f : Option String),
        ∃ r, MongoLogger.log_input_error st f c u = .ok r)
    ∧ MongoLogger.log_input_error stD insertFailure c u
        = .ok (stD, ["[Input Error] Context: " ++ c ++ " | Input: " ++ u])
    ∧ MongoLogger.log_input_error stC none c u
        = .ok ({ stC with
                   store := stC.store ++ [⟨"input_error",
                     [("context", .str c), ("invalid_input", .str u)], "warning", stC.clock⟩],
                   clock := stC.clock + 1 },
               ["[Input Error] Context: " ++ c ++ " | Input: " ++ u]) := by
  refine ⟨log_event_is_ok, ?_, ?_, ?_, fun st f => log_input_error_is_ok st f c u, ?_, ?_⟩
  · simp [MongoLogger.log_event, hd]
  · simp [MongoLogger.init]
  · intro e
    simp [MongoLogger.log_event, hc, insert_one]
  · simp [MongoLogger.log_input_error, MongoLogger.log_event, hd]
  · simp [MongoLogger.log_input_error, MongoLogger.log_event, hc, insert_one]

theorem log_event_best_effort_witness :
    MongoLogger.log_event ⟨false, [], 0⟩ (some "net down") "keyword_search" [] "info"
      = .ok (⟨false, [], 0⟩, []) :=
  (log_event_best_effort ⟨false, [], 0⟩ ⟨true, [], 0⟩ (some "net down")
    "keyword_search" [] "info" "ctx" "inp" "refused" rfl rfl).2.1

/-- C8 counterexample: on the menu-choice-4 path `main` never calls
`mysql_conn.close()`, and on the Ctrl+C path (`graceful_exit`) it closes
neither the MySQL connection nor the logger — so the claim that both paths
close both resources is false on the code. -/
theorem shutdown_close_counterexample :
    MainAction.closeMySQL ∉ main_loop [.choice 4]
    ∧ MainAction.closeMySQL ∉ main_loop [.interrupt]
    ∧ MainAction.closeLogger ∉ main_loop [.interrupt] := by
  decide

/-- C8 (amended): both normal termination paths — menu choice 4 and user
interrupt — log a final `shutdown` lifecycle event before the process
terminates; the menu-choice-4 path additionally closes the logger; neither
path closes the MySQL connection, and the interrupt path (which exits via
`sys.exit`) does not close the logger. -/
theorem shutdown_paths_amended (rest : List MenuStep) :
    main_loop (.choice 4 :: rest)
      = [.printMsg "Спасибо за использование Movie Search. До встречи!",
         .logEvent "shutdown" "info", .closeLogger]
    ∧ main_loop (.interrupt :: rest) = graceful_exit_actions
    ∧ MainAction.logEvent "shutdown" "info" ∈ main_loop (.choice 4 :: rest)
    ∧ MainAction.logEvent "shutdown" "info" ∈ main_loop (.interrupt :: rest)
    ∧ MainAction.closeLogger ∈ main_loop (.choice 4 :: rest)
    ∧ MainAction.sysExit ∈ main_loop (.interrupt :: rest)
    ∧ MainAction.closeMySQL ∉ main_loop (.choice 4 :: rest)
    ∧ MainAction.closeMySQL ∉ main_loop (.interrupt :: rest)
    ∧ MainAction.closeLogger ∉ main_loop (.interrupt :: rest) := by
  refine ⟨rfl, rfl, ?_, ?_, ?_, ?_, ?_, ?_, ?_⟩ <;>
    simp [main_loop, graceful_exit_actions]

/-- C6: both aggregator operations degrade gracefully: unreachable log store
(logger `None` or disconnected) yields exactly the one "unavailable"
placeholder; a raised aggregation query is caught, a `stats_error` event with
the operation's name and the error text is logged, and exactly one
error-tagged placeholder is returned; a reachable store with an empty event
log yields the empty list; and neither operation ever returns a raw
exception. -/
theorem stats_degrade_gracefully
    (stDisc stConn stAny : MongoLoggerState) (e : String)
    (h1 : stDisc.connected = false) (h2 : stConn.connected = true)
    (h3 : stConn.store = []) (h4 : stAny.connected = true) :
    (unavailable_stats "MongoDB").length = 1
    ∧ (∀ c, (stats_error_entry c).length = 1)
    ∧ (∀ agg, get_top_searches none agg = .ok (unavailable_stats "MongoDB", []))
    ∧ (∀ agg, get_recent_unique_searches none agg = .ok (unavailable_stats "MongoDB", []))
    ∧ (∀ agg, get_top_searches (some stDisc) agg = .ok (unavailable_stats "MongoDB", []))
    ∧ (∀ agg, get_recent_unique_searches (some stDisc) agg
        = .ok (unavailable_stats "MongoDB", []))
    ∧ get_top_searches (some stAny) (.raises e)
        = .ok (stats_error_entry "top_searches", [log_stats_error_event "top_searches" e])
    ∧ get_recent_unique_searches (some stAny) (.raises e)
        = .ok (stats_error_entry "recent_unique", [log_stats_error_event "recent_unique" e])
    ∧ get_top_searches (some stConn) .ok = .ok ([], [stats_top_event 0])
    ∧ get_recent_unique_searches (some stConn) .ok = .ok ([], [stats_recent_event 0])
    ∧ (∀ lg agg, ∃ r, get_top_searches lg agg = .ok r)
    ∧ (∀ lg agg, ∃ r, get_recent_unique_searches lg agg = .ok r) := by
  refine ⟨rfl, fun c => rfl, fun agg => rfl, fun agg => rfl, ?_, ?_, ?_, ?_, ?_, ?_, ?_, ?_⟩
  · intro agg; simp [get_top_searches, h1]
  · intro agg; simp [get_recent_unique_searches, h1]
  · simp [get_top_searches, h4, top_searches_try]
  · simp [get_recent_unique_searches, h4, recent_unique_try]
  · simp [get_top_searches, h2, top_searches_try, top_searches_pipeline, h3,
      groupDocs, List.insertionSort]
  · simp [get_recent_unique_searches, h2, recent_unique_try, recent_searches_pipeline, h3,
      groupDocs, List.insertionSort]
  · intro lg agg
    match lg with
    | none => exact ⟨_, rfl⟩
    | some st =>
      by_cases hcn : st.connected = false
      · simp [get_top_searches, hcn]
      · cases agg with
        | ok => simp [get_top_searches, hcn, top_searches_try]
        | raises m => simp [get_top_searches, hcn, top_searches_try]
  · intro lg agg
    match lg with
    | none => exact ⟨_, rfl⟩
    | some st =>
      by_cases hcn : st.connected = false
      · simp [get_recent_unique_searches, hcn]
      · cases agg with
        | ok => simp [get_recent_unique_searches, hcn, recent_unique_try]
        | raises m => simp [get_recent_unique_searches, hcn, recent_unique_try]

theorem stats_degrade_gracefully_witness :
    get_top_searches (some ⟨true, [], 0⟩) (.raises "agg failed")
      = .ok (stats_error_entry "top_searches",
             [log_stats_error_event "top_searches" "agg failed"]) :=
  (stats_degrade_gracefully ⟨false, [], 0⟩ ⟨true, [], 0⟩ ⟨true, [], 0⟩ "agg failed"
    rfl rfl rfl rfl).2.2.2.2.2.2.1

theorem keywordSummaries_append (a b : List EmittedEvent) :
    keywordSummaries (a ++ b) = keywordSummaries a ++ keywordSummaries b := by
  simp [keywordSummaries]

theorem keywordSummaries_runSearch (call : BoundCall) (o : Nat) (out : QueryOutcome) :
    keywordSummaries (runSearch call o out).2 = [] := by
  cases call with
  | keywordCall kw =>
    cases out <;> by_cases h : pyStrip kw = "" <;>
      simp [runSearch, search_by_keyword, h, keywordSummaries,
        log_search_error, log_input_error_event]
  | genreCall g a b =>
    cases out <;>
      simp [runSearch, search_by_genre_and_year, keywordSummaries, log_search_error]

theorem genre_no_summary (script : List Turn) :
    ∀ (args : List PyVal) (offset : Nat),
      keywordSummaries
        (show_paginated_results .byGenreYear args offset script).events = [] := by
  induction script with
  | nil =>
    intro args offset
    cases hb : bindCall .byGenreYear args with
    | error e => rw [spr_bind_error hb]; rfl
    | ok call => rw [spr_nil hb]; rfl
  | cons t ts ih =>
    intro args offset
    cases hb : bindCall .byGenreYear args with
    | error e => rw [spr_bind_error hb]; rfl
    | ok call =>
      have hpre : keywordSummaries (preEvents .byGenreYear args offset call t) = [] := by
        rw [preEvents, keywordSummaries_append, keywordSummaries_runSearch]
        simp [SearchFn.pyName, keywordSummaries]
      by_cases hemp : (runSearch call offset t.outcome).1 = []
      · cases hr : t.retryAnswer with
        | false => rw [spr_empty_stop hb hemp hr]; exact hpre
        | true =>
          rw [spr_empty_retry hb hemp hr]
          simp only [keywordSummaries_append, hpre, List.nil_append]
          exact ih _ 0
      · by_cases hlt : (runSearch call offset t.outcome).1.length < 10
        · rw [spr_short hb hemp hlt]; exact hpre
        · cases hcont : t.contAnswer with
          | false => rw [spr_full_stop hb hemp hlt hcont]; exact hpre
          | true =>
            rw [spr_full_cont hb hemp hlt hcont]
            simp only [keywordSummaries_append, hpre, List.nil_append]
            exact ih args (offset + 10)

theorem keyword_no_summary_pos (script : List Turn) :
    ∀ (args : List PyVal) (offset : Nat), offset ≠ 0 →
      (show_paginated_results .byKeyword args offset script).restarts = 0 →
      keywordSummaries
        (show_paginated_results .byKeyword args offset script).events = [] := by
  induction script with
  | nil =>
    intro args offset hoff hres
    cases hb : bindCall .byKeyword args with
    | error e => rw [spr_bind_error hb]; rfl
    | ok call => rw [spr_nil hb]; rfl
  | cons t ts ih =>
    intro args offset hoff hres
    cases hb : bindCall .byKeyword args with
    | error e => rw [spr_bind_error hb]; rfl
    | ok call =>
      have hpre : keywordSummaries (preEvents .byKeyword args offset call t) = [] := by
        rw [preEvents, keywordSummaries_append, keywordSummaries_runSearch]
        simp [hoff, keywordSummaries]
      by_cases hemp : (runSearch call offset t.outcome).1 = []
      · cases hr : t.retryAnswer with
        | false => rw [spr_empty_stop hb hemp hr]; exact hpre
        | true =>
          rw [spr_empty_retry hb hemp hr] at hres
          simp at hres
      · by_cases hlt : (runSearch call offset t.outcome).1.length < 10
        · rw [spr_short hb hemp hlt]; exact hpre
        · cases hcont : t.contAnswer with
          | false => rw [spr_full_stop hb hemp hlt hcont]; exact hpre
          | true =>
            rw [spr_full_cont hb hemp hlt hcont] at hres ⊢
            simp only [keywordSummaries_append, hpre, List.nil_append]
            exact ih args (offset + 10) (by omega) hres

/-- C1: a keyword session (one keyword, no restart) emits exactly one
`keyword_summary` event — carrying the keyword, the found/not-found status
and the first page's result count — no matter how many further pages are
fetched, and genre/year sessions never emit one. -/
theorem keyword_summary_once
    (kw : String) (t : Turn) (ts : List Turn)
    (hres : (show_paginated_results .byKeyword [.conn, .vstr kw] 0 (t :: ts)).restarts = 0) :
    keywordSummaries
        (show_paginated_results .byKeyword [.conn, .vstr kw] 0 (t :: ts)).events
      = [log_keyword_summary kw (search_by_keyword kw 0 t.outcome).1.length]
    ∧ (∀ n, (log_keyword_summary kw n).data.get "status"
        = some (.str (if n > 0 then "found" else "not_found")))
    ∧ (∀ n, (log_keyword_summary kw n).data.get "keyword" = some (.str kw))
    ∧ (∀ n, (log_keyword_summary kw n).data.get "found_count" = some (.int n))
    ∧ (∀ (args : List PyVal) (offset : Nat) (script : List Turn),
        keywordSummaries
          (show_paginated_results .byGenreYear args offset script).events = []) := by
  refine ⟨?_, ?_, ?_, ?_, fun args offset script => genre_no_summary script args offset⟩
  · have hb : bindCall .byKeyword [.conn, .vstr kw] = .ok (.keywordCall kw) := rfl
    have hpre : keywordSummaries (preEvents .byKeyword [.conn, .vstr kw] 0 (.keywordCall kw) t)
        = [log_keyword_summary kw (search_by_keyword kw 0 t.outcome).1.length] := by
      rw [preEvents, keywordSummaries_append, keywordSummaries_runSearch]
      simp [SearchFn.pyName, keywordSummaries, log_keyword_summary, argAt1, runSearch]
    by_cases hemp : (runSearch (.keywordCall kw) 0 t.outcome).1 = []
    · cases hr : t.retryAnswer with
      | false => rw [spr_empty_stop hb hemp hr]; exact hpre
      | true =>
        rw [spr_empty_retry hb hemp hr] at hres
        simp at hres
    · by_cases hlt : (runSearch (.keywordCall kw) 0 t.outcome).1.length < 10
      · rw [spr_short hb hemp hlt]; exact hpre
      · cases hcont : t.contAnswer with
        | false => rw [spr_full_stop hb hemp hlt hcont]; exact hpre
        | true =>
          rw [spr_full_cont hb hemp hlt hcont] at hres ⊢
          simp only [keywordSummaries_append, hpre] at hres ⊢
          rw [keyword_no_summary_pos ts _ _ (by omega) hres, List.append_nil]
  · intro n; simp [log_keyword_summary, Payload.get]
  · intro n; simp [log_keyword_summary, Payload.get]
  · intro n; simp [log_keyword_summary, Payload.get]

theorem keyword_summary_once_witness :
    (show_paginated_results .byKeyword [.conn, .vstr "love"] 0
        [⟨.ok [⟨"Love Story", 1970, some "PG"⟩], false, "", false⟩]).restarts = 0
    ∧ keywordSummaries
        (show_paginated_results .byKeyword [.conn, .vstr "love"] 0
          [⟨.ok [⟨"Love Story", 1970, some "PG"⟩], false, "", false⟩]).events
      = [log_keyword_summary "love"
          (search_by_keyword "love" 0 (.ok [⟨"Love Story", 1970, some "PG"⟩])).1.length] :=
  ⟨by decide,
   (keyword_summary_once "love" ⟨.ok [⟨"Love Story", 1970, some "PG"⟩], false, "", false⟩ []
      (by decide)).1⟩

/-- C2: when a page fetch raises, the orchestrator performs no automatic
retry: the failing fetch is the session's only fetch (the user declining the
prompt returns control to the menu loop), a `search_error` event is emitted
at error level with the context label ("keyword" / "genre_year"), the search
details and the error text, and delivering that event to a connected logger
prints a formatted console error line. -/
theorem search_error_aborts_session
    (kw g : String) (a b : Int) (o : Nat) (msg : String) (t : Turn) (ts : List Turn)
    (st : MongoLoggerState)
    (hkw : pyStrip kw ≠ "")
    (hout : t.outcome = .raises msg)
    (hretry : t.retryAnswer = false)
    (hconn : st.connected = true) :
    (show_paginated_results .byKeyword [.conn, .vstr kw] o (t :: ts)).events
        = log_search_error "keyword" kw msg
            :: (if o = 0 then [log_keyword_summary kw 0] else [])
    ∧ (show_paginated_results .byKeyword [.conn, .vstr kw] o (t :: ts)).fetchOffsets = [o]
    ∧ (show_paginated_results .byKeyword [.conn, .vstr kw] o (t :: ts)).termination
        = .finished
    ∧ (show_paginated_results .byGenreYear [.conn, .vstr g, .vint a, .vint b] o
          (t :: ts)).events
        = [log_search_error "genre_year" (g ++ ", " ++ toString a ++ "-" ++ toString b) msg]
    ∧ (show_paginated_results .byGenreYear [.conn, .vstr g, .vint a, .vint b] o
          (t :: ts)).fetchOffsets = [o]
    ∧ (show_paginated_results .byGenreYear [.conn, .vstr g, .vint a, .vint b] o
          (t :: ts)).termination = .finished
    ∧ (log_search_error "keyword" kw msg).level = "error"
    ∧ (log_search_error "genre_year" (g ++ ", " ++ toString a ++ "-" ++ toString b) msg).level
        = "error"
    ∧ (∀ context details,
        MongoLogger.log_event st none "search_error"
            (log_search_error context details msg).data "error"
          = .ok ({ st with
                     store := st.store ++ [⟨"search_error",
                       (log_search_error context details msg).data, "error", st.clock⟩],
                     clock := st.clock + 1 },
                 [console_line "error" st.clock "search_error"
                    (log_search_error context details msg).data])) := by
  have hb : bindCall .byKeyword [.conn, .vstr kw] = .ok (.keywordCall kw) := rfl
  have hbg : bindCall .byGenreYear [.conn, .vstr g, .vint a, .vint b]
      = .ok (.genreCall g a b) := rfl
  have hemp : (runSearch (.keywordCall kw) o t.outcome).1 = [] := by
    simp [runSearch, hout, search_by_keyword, hkw]
  have hempg : (runSearch (.genreCall g a b) o t.outcome).1 = [] := by
    simp [runSearch, hout, search_by_genre_and_year]
  refine ⟨?_, ?_, ?_, ?_, ?_, ?_, rfl, rfl, ?_⟩
  · rw [spr_empty_stop hb hemp hretry]
    simp [preEvents, runSearch, hout, search_by_keyword, hkw, SearchFn.pyName, argAt1]
  · rw [spr_empty_stop hb hemp hretry]
  · rw [spr_empty_stop hb hemp hretry]
  · rw [spr_empty_stop hbg hempg hretry]
    simp [preEvents, runSearch, hout, search_by_genre_and_year, SearchFn.pyName]
  · rw [spr_empty_stop hbg hempg hretry]
  · rw [spr_empty_stop hbg hempg hretry]
  · intro context details
    simp [MongoLogger.log_event, hconn, insert_one]

theorem search_error_aborts_session_witness :
    (show_paginated_results .byKeyword [.conn, .vstr "love"] 0
        [⟨.raises "MySQL server has gone away", false, "", false⟩]).events
      = log_search_error "keyword" "love" "MySQL server has gone away"
          :: [log_keyword_summary "love" 0]
    ∧ console_line "error" 0 "search_error"
        (log_search_error "keyword" "love" "MySQL server has gone away").data
      = "[ERROR] 0  search_error: Ошибка при поиске (keyword): love" :=
  ⟨by
    have h := (search_error_aborts_session "love" "Drama" 2000 2005 0
      "MySQL server has gone away" ⟨.raises "MySQL server has gone away", false, "", false⟩
      [] ⟨true, [], 0⟩ (by decide) rfl rfl rfl).1
    simpa using h,
   by decide⟩

theorem offsetsList_succ (o n : Nat) :
    offsetsList o (n + 1) = o :: offsetsList (o + 10) n := by
  unfold offsetsList
  rw [List.range_succ_eq_map]
  simp only [List.map_cons, List.map_map, Nat.mul_zero, Nat.add_zero]
  refine congrArg _ (List.map_congr_left fun i _ => ?_)
  simp [Function.comp]
  omega

theorem fetchOffsets_arith (script : List Turn) :
    ∀ (func : SearchFn) (args : List PyVal) (o : Nat),
      (show_paginated_results func args o script).restarts = 0 →
      (show_paginated_results func args o script).fetchOffsets
        = offsetsList o (show_paginated_results func args o script).fetchOffsets.length := by
  induction script with
  | nil =>
    intro func args o hres
    cases hb : bindCall func args with
    | error e => rw [spr_bind_error hb]; rfl
    | ok call => rw [spr_nil hb]; rfl
  | cons t ts ih =>
    intro func args o hres
    cases hb : bindCall func args with
    | error e => rw [spr_bind_error hb]; rfl
    | ok call =>
      by_cases hemp : (runSearch call o t.outcome).1 = []
      · cases hr : t.retryAnswer with
        | true =>
          rw [spr_empty_retry hb hemp hr] at hres
          simp at hres
        | false =>
          rw [spr_empty_stop hb hemp hr]
          simp [offsetsList, List.range_succ]
      · by_cases hlt : (runSearch call o t.outcome).1.length < 10
        · rw [spr_short hb hemp hlt]
          simp [offsetsList, List.range_succ]
        · cases hcont : t.contAnswer with
          | false =>
            rw [spr_full_stop hb hemp hlt hcont]
            simp [offsetsList, List.range_succ]
          | true =>
            rw [spr_full_cont hb hemp hlt hcont] at hres ⊢
            simp only at hres ⊢
            rw [List.length_cons, offsetsList_succ]
            exact congrArg _ (ih func args (o + 10) hres)

/-- C5: in a paginated session (no restart) the offset starts at 0 and the
i-th fetch happens at offset 10·i, so after k full-page fetches the offset is
10·k; a non-empty page shorter than 10 ends the session with no further fetch
and no prompt; a page of exactly 10 triggers the "show more?" prompt, and the
offset advances — by exactly 10 — only on an affirmative answer. -/
theorem pagination_offset_invariant
    (func : SearchFn) (args : List PyVal) (call : BoundCall)
    (script : List Turn) (t : Turn) (ts : List Turn) (o : Nat)
    (hb : bindCall func args = .ok call)
    (hres : (show_paginated_results func args 0 script).restarts = 0) :
    (∀ i, (hi : i < (show_paginated_results func args 0 script).fetchOffsets.length) →
        (show_paginated_results func args 0 script).fetchOffsets[i] = 10 * i)
    ∧ ((runSearch call o t.outcome).1 ≠ [] → (runSearch call o t.outcome).1.length < 10 →
        (show_paginated_results func args o (t :: ts)).fetchOffsets = [o]
        ∧ (show_paginated_results func args o (t :: ts)).termination = .finished
        ∧ (show_paginated_results func args o (t :: ts)).prompts = [])
    ∧ ((runSearch call o t.outcome).1.length = 10 →
        (t.contAnswer = true →
          (show_paginated_results func args o (t :: ts)).fetchOffsets
            = o :: (show_paginated_results func args (o + 10) ts).fetchOffsets
          ∧ (show_paginated_results func args o (t :: ts)).prompts
            = "show_more" :: (show_paginated_results func args (o + 10) ts).prompts)
        ∧ (t.contAnswer = false →
          (show_paginated_results func args o (t :: ts)).fetchOffsets = [o]
          ∧ (show_paginated_results func args o (t :: ts)).prompts = ["show_more"]
          ∧ (show_paginated_results func args o (t :: ts)).termination = .finished)) := by
  refine ⟨?_, ?_, ?_⟩
  · intro i hi
    have h := fetchOffsets_arith script func args 0 hres
    rw [List.getElem_of_eq h hi]
    simp [offsetsList]
  · intro hne hlt
    rw [spr_short hb hne hlt]
    exact ⟨rfl, rfl, rfl⟩
  · intro hlen
    have hne : (runSearch call o t.outcome).1 ≠ [] := by
      intro h; rw [h] at hlen; simp at hlen
    have hge : ¬ (runSearch call o t.outcome).1.length < 10 := by omega
    refine ⟨fun hcont => ?_, fun hcont => ?_⟩
    · rw [spr_full_cont hb hne hge hcont]
      exact ⟨rfl, rfl⟩
    · rw [spr_full_stop hb hne hge hcont]
      exact ⟨rfl, rfl, rfl⟩

theorem pagination_offset_invariant_witness :
    (show_paginated_results .byKeyword [.conn, .vstr "love"] 0
        [⟨.ok [⟨"A", 1, none⟩, ⟨"B", 2, none⟩], false, "", false⟩]).fetchOffsets = [0]
    ∧ (show_paginated_results .byKeyword [.conn, .vstr "love"] 0
        [⟨.ok [⟨"A", 1, none⟩, ⟨"B", 2, none⟩], false, "", false⟩]).termination = .finished :=
  ⟨((pagination_offset_invariant .byKeyword [.conn, .vstr "love"] (.keywordCall "love")
      [] ⟨.ok [⟨"A", 1, none⟩, ⟨"B", 2, none⟩], false, "", false⟩ [] 0 rfl
      (by decide)).2.1 (by decide) (by decide)).1,
   ((pagination_offset_invariant .byKeyword [.conn, .vstr "love"] (.keywordCall "love")
      [] ⟨.ok [⟨"A", 1, none⟩, ⟨"B", 2, none⟩], false, "", false⟩ [] 0 rfl
      (by decide)).2.1 (by decide) (by decide)).2.1⟩

theorem keyword_run_no_raise (script : List Turn) :
    ∀ (kw : String) (o : Nat) (err : String),
      (show_paginated_results .byKeyword [.conn, .vstr kw] o script).termination
        ≠ .raised err := by
  induction script with
  | nil =>
    intro kw o err
    have hb : bindCall .byKeyword [.conn, .vstr kw] = .ok (.keywordCall kw) := rfl
    rw [spr_nil hb]
    simp
  | cons t ts ih =>
    intro kw o err
    have hb : bindCall .byKeyword [.conn, .vstr kw] = .ok (.keywordCall kw) := rfl
    by_cases hemp : (runSearch (.keywordCall kw) o t.outcome).1 = []
    · cases hr : t.retryAnswer with
      | false => rw [spr_empty_stop hb hemp hr]; simp
      | true =>
        rw [spr_empty_retry hb hemp hr]
        simpa using ih t.newKeyword 0 err
    · by_cases hlt : (runSearch (.keywordCall kw) o t.outcome).1.length < 10
      · rw [spr_short hb hemp hlt]; simp
      · cases hcont : t.contAnswer with
        | false => rw [spr_full_stop hb hemp hlt hcont]; simp
        | true =>
          rw [spr_full_cont hb hemp hlt hcont]
          simpa using ih kw (o + 10) err

/-- C7: the empty-page retry branch rebuilds the argument tuple as
(connection, new_keyword) regardless of which search function started the
session; a genre/year session reaching this branch therefore re-invokes
`search_by_genre_and_year` without its required `year_from`/`year_to`
arguments and raises `TypeError`, while keyword sessions never raise — the
retry path is well-formed only for keyword sessions. -/
theorem genre_retry_type_error
    (g kw : String) (a b : Int) (o : Nat) (t : Turn) (ts : List Turn)
    (hempg : (runSearch (.genreCall g a b) o t.outcome).1 = [])
    (hempk : (runSearch (.keywordCall kw) o t.outcome).1 = [])
    (hretry : t.retryAnswer = true) :
    (∀ (func : SearchFn) (args : List PyVal) (call : BoundCall),
        bindCall func args = .ok call →
        (runSearch call o t.outcome).1 = [] →
        (show_paginated_results func args o (t :: ts)).termination
          = (show_paginated_results func
               [args.headD .conn, .vstr t.newKeyword] 0 ts).termination)
    ∧ (show_paginated_results .byGenreYear [.conn, .vstr g, .vint a, .vint b] o
          (t :: ts)).termination = .raised "TypeError"
    ∧ (∀ err, (show_paginated_results .byKeyword [.conn, .vstr kw] o
          (t :: ts)).termination ≠ .raised err) := by
  refine ⟨?_, ?_, fun err => keyword_run_no_raise (t :: ts) kw o err⟩
  · intro func args call hb hemp
    rw [spr_empty_retry hb hemp hretry]
  · have hb : bindCall .byGenreYear [.conn, .vstr g, .vint a, .vint b]
        = .ok (.genreCall g a b) := rfl
    rw [spr_empty_retry hb hempg hretry]
    have hb2 : bindCall .byGenreYear [PyVal.conn, .vstr t.newKeyword]
        = .error "TypeError" := rfl
    simpa using congrArg RunResult.termination
      (spr_bind_error hb2 0 ts)

theorem genre_retry_type_error_witness :
    (runSearch (.genreCall "Drama" 2000 2005) 0 (.ok [])).1 = []
    ∧ (show_paginated_results .byGenreYear [.conn, .vstr "Drama", .vint 2000, .vint 2005] 0
        [⟨.ok [], true, "war", false⟩]).termination = .raised "TypeError" :=
  ⟨by decide,
   (genre_retry_type_error "Drama" "war" 2000 2005 0 ⟨.ok [], true, "war", false⟩ []
      (by decide) (by decide) rfl).2.1⟩

section Grouping

variable {κ : Type} [DecidableEq κ]

theorem findKey_addDoc (key : LogEvent → κ) (d : LogEvent) (k : κ)
    (acc : List (GroupOf κ)) :
    findKey (addDoc key acc d) k =
      if k = key d then
        match findKey acc k with
        | some g => some ⟨g.key, g.count + 1, g.timestamp⟩
        | none => some ⟨key d, 1, d.timestamp⟩
      else findKey acc k := by
  induction acc with
  | nil =>
    by_cases h : k = key d
    · subst h; simp [addDoc, findKey]
    · have h2 : ¬(key d = k) := fun hh => h hh.symm
      simp [addDoc, findKey, h, h2]
  | cons g gs ih =>
    by_cases hg : g.key = key d
    · by_cases h : k = key d
      · subst h
        simp [addDoc, findKey, hg]
      · have hgk : ¬(g.key = k) := by rw [hg]; exact fun hh => h hh.symm
        have h3 : ¬(key d = k) := fun hh => h hh.symm
        simp [addDoc, findKey, hg, hgk, h, h3]
    · by_cases h : k = key d
      · subst h
        simp [addDoc, findKey, hg, ih]
      · simp [addDoc, findKey, hg, h, ih]

theorem findKey_foldl_addDoc (key : LogEvent → κ) (k : κ) (docs : List LogEvent) :
    ∀ acc : List (GroupOf κ),
      findKey (List.foldl (addDoc key) acc docs) k =
        match findKey acc k, docs.filter (fun d => key d = k) with
        | some g, ds => some ⟨g.key, g.count + ds.length, g.timestamp⟩
        | none, [] => none
        | none, d :: ds => some ⟨key d, 1 + ds.length, d.timestamp⟩ := by
  induction docs with
  | nil =>
    intro acc
    simp only [List.foldl_nil, List.filter_nil]
    cases hf : findKey acc k with
    | none => rfl
    | some g => rfl
  | cons d ds ih =>
    intro acc
    simp only [List.foldl_cons]
    rw [ih (addDoc key acc d), findKey_addDoc]
    by_cases hkd : k = key d
    · rw [if_pos hkd]
      have hfc : (d :: ds).filter (fun x => decide (key x = k))
          = d :: ds.filter (fun x => decide (key x = k)) := by
        simp [List.filter_cons, hkd]
      rw [hfc]
      cases hf : findKey acc k with
      | some g =>
        simp only [List.length_cons, Option.some.injEq, GroupOf.mk.injEq]
        exact ⟨trivial, by omega, trivial⟩
      | none => rfl
    · rw [if_neg hkd]
      have hfc : (d :: ds).filter (fun x => decide (key x = k))
          = ds.filter (fun x => decide (key x = k)) := by
        have h2 : ¬(key d = k) := fun hh => hkd hh.symm
        simp [List.filter_cons, h2]
      rw [hfc]

theorem findKey_groupDocs (key : LogEvent → κ) (k : κ) (docs : List LogEvent) :
    findKey (groupDocs key docs) k =
      match docs.filter (fun d => key d = k) with
      | [] => none
      | d :: ds => some ⟨key d, 1 + ds.length, d.timestamp⟩ := by
  rw [groupDocs, findKey_foldl_addDoc]
  cases hf : docs.filter (fun d => key d = k) <;> rfl

theorem keys_addDoc (key : LogEvent → κ) (d : LogEvent) (acc : List (GroupOf κ)) :
    (addDoc key acc d).map (fun g => g.key)
      = if key d ∈ acc.map (fun g => g.key) then acc.map (fun g => g.key)
        else acc.map (fun g => g.key) ++ [key d] := by
  induction acc with
  | nil => simp [addDoc]
  | cons g gs ih =>
    by_cases hg : g.key = key d
    · simp [addDoc, hg]
    · have hne : ¬(key d = g.key) := fun hh => hg hh.symm
      by_cases hmem : key d ∈ gs.map (fun g => g.key)
      · simp [addDoc, hg, hne, hmem, ih]
      · simp [addDoc, hg, hne, hmem, ih]

theorem keys_nodup_foldl (key : LogEvent → κ) (docs : List LogEvent) :
    ∀ acc : List (GroupOf κ),
      ((acc.map (fun g => g.key)).Nodup) →
      ((List.foldl (addDoc key) acc docs).map (fun g => g.key)).Nodup := by
  induction docs with
  | nil => intro acc h; simpa using h
  | cons d ds ih =>
    intro acc h
    simp only [List.foldl_cons]
    refine ih (addDoc key acc d) ?_
    rw [keys_addDoc]
    by_cases hmem : key d ∈ acc.map (fun g => g.key)
    · simpa [hmem] using h
    · simp only [if_neg hmem]
      simp [List.nodup_append, h, hmem]

theorem keys_nodup_groupDocs (key : LogEvent → κ) (docs : List LogEvent) :
    ((groupDocs key docs).map (fun g => g.key)).Nodup :=
  keys_nodup_foldl key docs [] (by simp)

theorem findKey_of_mem :
    ∀ (gs : List (GroupOf κ)), ((gs.map (fun g => g.key)).Nodup) →
      ∀ g ∈ gs, findKey gs g.key = some g := by
  intro gs
  induction gs with
  | nil => intro _ g hg; simp at hg
  | cons g' gs ih =>
    intro hnd g hg
    rcases List.mem_cons.mp hg with h | h
    · subst h; simp [findKey]
    · have hne : ¬(g'.key = g.key) := by
        intro he
        have : g.key ∈ gs.map (fun g => g.key) := List.mem_map_of_mem _ h
        rw [List.map_cons, List.nodup_cons] at hnd
        exact hnd.1 (he ▸ this)
      rw [findKey, if_neg hne]
      exact ih (by rw [List.map_cons, List.nodup_cons] at hnd; exact hnd.2) g h

end Grouping

theorem mem_groupDocs_top_facts (docs : List LogEvent) (g : GroupOf GroupKey)
    (hg2 : g ∈ groupDocs docKey (List.insertionSort dtsGe (docs.filter isSearchDoc))) :
    g.count = (docs.filter (matchesTopKey g.key)).length
    ∧ (∃ d ∈ docs, matchesTopKey g.key d = true ∧ d.timestamp = g.timestamp)
    ∧ (∀ d ∈ docs, matchesTopKey g.key d = true → d.timestamp ≤ g.timestamp) := by
  have hsorted : (List.insertionSort dtsGe (docs.filter isSearchDoc)).Pairwise dtsGe :=
    List.sorted_insertionSort dtsGe _
  have hperm := List.perm_insertionSort dtsGe (docs.filter isSearchDoc)
  have hfind := findKey_of_mem _ (keys_nodup_groupDocs docKey _) g hg2
  cases hfil : (List.insertionSort dtsGe (docs.filter isSearchDoc)).filter
      (fun d => decide (docKey d = g.key)) with
  | nil =>
    rw [findKey_groupDocs, hfil] at hfind
    exact absurd hfind (by simp)
  | cons d0 ds0 =>
    rw [findKey_groupDocs, hfil] at hfind
    have h2 := Option.some.inj hfind
    have hkey : docKey d0 = g.key := congrArg GroupOf.key h2
    have hcount : 1 + ds0.length = g.count := congrArg GroupOf.count h2
    have hts : d0.timestamp = g.timestamp := congrArg GroupOf.timestamp h2
    have hlen : ((List.insertionSort dtsGe (docs.filter isSearchDoc)).filter
          (fun d => decide (docKey d = g.key))).length
        = ((docs.filter isSearchDoc).filter (fun d => decide (docKey d = g.key))).length :=
      (hperm.filter _).length_eq
    rw [hfil] at hlen
    have hff : (docs.filter isSearchDoc).filter (fun d => decide (docKey d = g.key))
        = docs.filter (matchesTopKey g.key) := by
      rw [List.filter_filter]
      exact List.filter_congr (fun a _ => by simp [matchesTopKey, Bool.and_comm])
    rw [hff] at hlen
    refine ⟨?_, ?_, ?_⟩
    · rw [← hcount, ← hlen]
      simp [Nat.add_comm]
    · have hd0 : d0 ∈ (List.insertionSort dtsGe (docs.filter isSearchDoc)).filter
          (fun d => decide (docKey d = g.key)) := by
        rw [hfil]; exact List.mem_cons_self _ _
      have hd0f : d0 ∈ docs.filter isSearchDoc :=
        hperm.mem_iff.mp (List.mem_of_mem_filter hd0)
      refine ⟨d0, List.mem_of_mem_filter hd0f, ?_, hts⟩
      simp [matchesTopKey, hkey, List.of_mem_filter hd0f]
    · intro d2 hd2 hm
      have hm2 : isSearchDoc d2 = true ∧ docKey d2 = g.key := by
        simpa [matchesTopKey] using hm
      have hd2f : d2 ∈ docs.filter isSearchDoc := List.mem_filter_of_mem hd2 hm2.1
      have hd2p : d2 ∈ (List.insertionSort dtsGe (docs.filter isSearchDoc)).filter
          (fun d => decide (docKey d = g.key)) :=
        List.mem_filter_of_mem (hperm.mem_iff.mpr hd2f) (by simp [hm2.2])
      have hfsort := hsorted.filter (fun d => decide (docKey d = g.key))
      rw [hfil] at hd2p hfsort
      rcases List.mem_cons.mp hd2p with h | h
      · rw [h, hts]
      · have hrel := List.rel_of_pairwise_cons hfsort h
        rw [← hts]
        exact hrel

/-- C3 counterexample: the pipeline's final `$sort` uses count as its only
key, so for two groups with equal counts both orders are admissible outputs
of the program.  With one "love" search at time 1 and one "war" search at
time 2 (both counts 1), the arrangement that lists the OLDER group first is a
valid count-descending output, and it violates the claimed tie-break (count
descending, ties by more-recent timestamp first). -/
theorem top_searches_tiebreak_counterexample :
    validTopOutput
      [⟨"search_by_keyword", [("keyword", .str "love")], "info", 1⟩,
       ⟨"search_by_keyword", [("keyword", .str "war")], "info", 2⟩]
      [⟨⟨"search_by_keyword", some (.str "love"), none, none, none⟩, 1, 1⟩,
       ⟨⟨"search_by_keyword", some (.str "war"), none, none, none⟩, 1, 2⟩]
    ∧ ¬ ([⟨⟨"search_by_keyword", some (.str "love"), none, none, none⟩, 1, 1⟩,
          ⟨⟨"search_by_keyword", some (.str "war"), none, none, none⟩, 1, 2⟩]
          : List (GroupOf GroupKey)).Pairwise lexP := by
  constructor
  · exact ⟨[⟨⟨"search_by_keyword", some (.str "love"), none, none, none⟩, 1, 1⟩,
            ⟨⟨"search_by_keyword", some (.str "war"), none, none, none⟩, 1, 2⟩],
           by decide, by decide, rfl⟩
  · intro h
    rw [List.pairwise_cons] at h
    exact absurd ((h.1 _ (List.mem_cons_self _ _)).2 rfl) (by decide)

/-- C3 (amended): every admissible output of the `get_top_searches` pipeline
— MongoDB fixes the multiset of groups and guarantees only the
count-descending order of the final sort, with no tie-break between
equal-count groups — has at most 5 entries, counts non-increasing
(for entries A before B, count(A) ≥ count(B)), and for each entry the count
of that group's search events (non-search events excluded) and the most
recent matching event's timestamp as its representative timestamp; the
deterministic reference evaluation used by the `get_top_searches` model is
one such admissible output. -/
theorem top_searches_count_ranking (docs : List LogEvent)
    (out : List (GroupOf GroupKey)) (st : MongoLoggerState)
    (hconn : st.connected = true)
    (hvalid : validTopOutput docs out) :
    out.length ≤ 5
    ∧ out.Pairwise countGe
    ∧ (∀ g ∈ out,
        g.count = (docs.filter (matchesTopKey g.key)).length
        ∧ (∃ d ∈ docs, matchesTopKey g.key d = true ∧ d.timestamp = g.timestamp)
        ∧ (∀ d ∈ docs, matchesTopKey g.key d = true → d.timestamp ≤ g.timestamp))
    ∧ validTopOutput docs (top_searches_pipeline docs)
    ∧ get_top_searches (some st) .ok
        = .ok ((top_searches_pipeline st.store).map format_top_entry,
               [stats_top_event (top_searches_pipeline st.store).length]) := by
  obtain ⟨gs, hperm, hsortc, hout⟩ := hvalid
  refine ⟨?_, ?_, ?_, ?_, ?_⟩
  · rw [hout]
    exact List.length_take_le _ _
  · rw [hout]
    exact List.Pairwise.sublist (List.take_sublist _ _) hsortc
  · intro g hg
    rw [hout] at hg
    exact mem_groupDocs_top_facts docs g (hperm.subset ((List.take_sublist 5 _).subset hg))
  · exact ⟨List.insertionSort countGe
       (groupDocs docKey (List.insertionSort dtsGe (docs.filter isSearchDoc))),
     List.perm_insertionSort _ _, List.sorted_insertionSort countGe _, rfl⟩
  · simp [get_top_searches, hconn, top_searches_try]

theorem top_searches_count_ranking_witness :
    (⟨⟨"search_by_keyword", some (.str "love"), none, none, none⟩, 2, 3⟩
        : GroupOf GroupKey).count
      = (([⟨"search_by_keyword", [("keyword", .str "love")], "info", 3⟩,
           ⟨"search_by_keyword", [("keyword", .str "love")], "info", 1⟩,
           ⟨"search_by_genre_year",
            [("genre", .str "Drama"), ("year_from", .int 2000), ("year_to", .int 2005)],
            "info", 2⟩] : List LogEvent).filter
          (matchesTopKey ⟨"search_by_keyword", some (.str "love"), none, none, none⟩)).length :=
  ((top_searches_count_ranking
      [⟨"search_by_keyword", [("keyword", .str "love")], "info", 3⟩,
       ⟨"search_by_keyword", [("keyword", .str "love")], "info", 1⟩,
       ⟨"search_by_genre_year",
        [("genre", .str "Drama"), ("year_from", .int 2000), ("year_to", .int 2005)],
        "info", 2⟩]
      [⟨⟨"search_by_keyword", some (.str "love"), none, none, none⟩, 2, 3⟩,
       ⟨⟨"search_by_genre_year", none, some (.str "Drama"), some (.int 2000),
          some (.int 2005)⟩, 1, 2⟩]
      ⟨true, [], 0⟩ rfl
      ⟨[⟨⟨"search_by_keyword", some (.str "love"), none, none, none⟩, 2, 3⟩,
        ⟨⟨"search_by_genre_year", none, some (.str "Drama"), some (.int 2000),
           some (.int 2005)⟩, 1, 2⟩],
       by decide, by decide, rfl⟩).2.2.1
    ⟨⟨"search_by_keyword", some (.str "love"), none, none, none⟩, 2, 3⟩ (by decide)).1

/-- C4 counterexample: `get_recent_unique_searches` matches ONLY
`search_by_keyword` events, so a genre/year search event — which the claim
says is grouped and ranked like any other search — is dropped entirely: the
code's pipeline returns no entry for it, while the view described by the
claim (modelled from the spec as `recent_unique_claim`) returns one. -/
theorem recent_unique_counterexample :
    (recent_searches_pipeline
        [⟨"search_by_genre_year",
          [("genre", .str "Drama"), ("year_from", .int 2000), ("year_to", .int 2005)],
          "info", 0⟩]).length = 0
    ∧ (recent_unique_claim
        [⟨"search_by_genre_year",
          [("genre", .str "Drama"), ("year_from", .int 2000), ("year_to", .int 2005)],
          "info", 0⟩]).length = 1 := by
  decide

/-- C4 (amended): `get_recent_unique_searches` considers ONLY keyword search
events (genre/year searches are excluded), groups them by keyword, keeps the
most recent timestamp per keyword, and returns at most 5 groups ranked by
that timestamp descending; no two returned entries share the same keyword
signature. -/
theorem recent_unique_ranking (docs : List LogEvent) (st : MongoLoggerState)
    (hconn : st.connected = true) :
    (recent_searches_pipeline docs).length ≤ 5
    ∧ (recent_searches_pipeline docs).Pairwise gtsGe
    ∧ ((recent_searches_pipeline docs).map (fun g => g.key)).Nodup
    ∧ (∀ g ∈ recent_searches_pipeline docs,
        (∃ d ∈ docs, d.event_type = "search_by_keyword" ∧ recentKey d = g.key
           ∧ d.timestamp = g.timestamp)
        ∧ (∀ d ∈ docs, d.event_type = "search_by_keyword" → recentKey d = g.key →
            d.timestamp ≤ g.timestamp))
    ∧ get_recent_unique_searches (some st) .ok
        = .ok ((recent_searches_pipeline st.store).map format_recent_entry,
               [stats_recent_event (recent_searches_pipeline st.store).length]) := by
  have hsorted : (List.insertionSort dtsGe
      (docs.filter (fun d => d.event_type == "search_by_keyword"))).Pairwise dtsGe :=
    List.sorted_insertionSort dtsGe _
  have hperm := List.perm_insertionSort dtsGe
    (docs.filter (fun d => d.event_type == "search_by_keyword"))
  have hkeys := keys_nodup_groupDocs recentKey
    (List.insertionSort dtsGe (docs.filter (fun d => d.event_type == "search_by_keyword")))
  refine ⟨?_, ?_, ?_, ?_, ?_⟩
  · simp only [recent_searches_pipeline]
    exact List.length_take_le _ _
  · simp only [recent_searches_pipeline]
    exact List.Pairwise.sublist (List.take_sublist _ _)
      (List.sorted_insertionSort gtsGe _)
  · simp only [recent_searches_pipeline]
    rw [List.map_take]
    refine List.Nodup.sublist (List.take_sublist _ _) ?_
    exact (((List.perm_insertionSort gtsGe _).map (fun g => g.key)).nodup_iff).mpr hkeys
  · intro g hg
    simp only [recent_searches_pipeline] at hg
    have hg1 := (List.take_sublist 5 _).subset hg
    have hg2 := (List.mem_insertionSort gtsGe).mp hg1
    have hfind := findKey_of_mem _ hkeys g hg2
    cases hfil : (List.insertionSort dtsGe
        (docs.filter (fun d => d.event_type == "search_by_keyword"))).filter
        (fun d => decide (recentKey d = g.key)) with
    | nil =>
      rw [findKey_groupDocs, hfil] at hfind
      exact absurd hfind (by simp)
    | cons d0 ds0 =>
      rw [findKey_groupDocs, hfil] at hfind
      have h2 := Option.some.inj hfind
      have hkey : recentKey d0 = g.key := congrArg GroupOf.key h2
      have hts : d0.timestamp = g.timestamp := congrArg GroupOf.timestamp h2
      constructor
      · have hd0 : d0 ∈ (List.insertionSort dtsGe
            (docs.filter (fun d => d.event_type == "search_by_keyword"))).filter
            (fun d => decide (recentKey d = g.key)) := by
          rw [hfil]; exact List.mem_cons_self _ _
        have hd0f : d0 ∈ docs.filter (fun d => d.event_type == "search_by_keyword") :=
          hperm.mem_iff.mp (List.mem_of_mem_filter hd0)
        have hd0t : d0.event_type = "search_by_keyword" := by
          have := List.of_mem_filter hd0f
          simpa using this
        exact ⟨d0, List.mem_of_mem_filter hd0f, hd0t, hkey, hts⟩
      · intro d2 hd2 ht2 hk2
        have hd2f : d2 ∈ docs.filter (fun d => d.event_type == "search_by_keyword") :=
          List.mem_filter_of_mem hd2 (by simp [ht2])
        have hd2p : d2 ∈ (List.insertionSort dtsGe
            (docs.filter (fun d => d.event_type == "search_by_keyword"))).filter
            (fun d => decide (recentKey d = g.key)) :=
          List.mem_filter_of_mem (hperm.mem_iff.mpr hd2f) (by simp [hk2])
        have hfsort := hsorted.filter (fun d => decide (recentKey d = g.key))
        rw [hfil] at hd2p hfsort
        rcases List.mem_cons.mp hd2p with h | h
        · rw [h, hts]
        · have hrel := List.rel_of_pairwise_cons hfsort h
          rw [← hts]
          exact hrel
  · simp [get_recent_unique_searches, hconn, recent_unique_try]

theorem recent_unique_ranking_witness :
    ((recent_searches_pipeline
        [⟨"search_by_keyword", [("keyword", .str "love")], "info", 5⟩,
         ⟨"search_by_keyword", [("keyword", .str "love")], "info", 2⟩,
         ⟨"search_by_keyword", [("keyword", .str "war")], "info", 3⟩]).map
      (fun g => g.key)).Nodup :=
  (recent_unique_ranking
    [⟨"search_by_keyword", [("keyword", .str "love")], "info", 5⟩,
     ⟨"search_by_keyword", [("keyword", .str "love")], "info", 2⟩,
     ⟨"search_by_keyword", [("keyword", .str "war")], "info", 3⟩]
    ⟨true, [], 0⟩ rfl).2.2.1

end MovieSearch
